import Mathlib

/-!
Shallow embedding of `src/server.py` (BODMAS MCP calculator server).

Numeric tool arguments are Python floats; we model them as exact rationals
(`ℚ`): every finite float is a rational, Python comparison `b == 0` is exact
numeric equality, and the arithmetic laws the spec states are about the
mathematical operations the one-line tool bodies perform.  A tool that can
raise is modelled with `Except String` carrying the exception message.

Python semantics of the power operator `**` on floats (used verbatim by the
`power` tool) are modelled by an outcome type: CPython raises
`ZeroDivisionError` for a zero base with a negative exponent, returns a
complex number for a negative base with a non-integral exponent, and
otherwise returns a real value (exact here when the exponent is integral;
a fractional exponent over a nonnegative base yields a real root, whose
rounded value the rational model does not compute).

The two static resources and the prompt template are pure string/byte
producers; the image resource's file read is modelled by an abstract
file-read outcome, mirroring the try/except structure of the source.
-/

namespace BodmasServer

/-- Embedding of `add` (server.py line 101): `result = a + b`. -/
def add (a b : ℚ) : ℚ := a + b

/-- Embedding of `subtract` (server.py line 116): `result = a - b`. -/
def subtract (a b : ℚ) : ℚ := a - b

/-- Embedding of `multiply` (server.py line 131): `result = a * b`. -/
def multiply (a b : ℚ) : ℚ := a * b

/-- Embedding of `divide` (server.py line 146): raises
`ValueError("Cannot divide by zero")` when `b == 0`, else returns `a / b`. -/
def divide (a b : ℚ) : Except String ℚ :=
  if b = 0 then Except.error "Cannot divide by zero"
  else Except.ok (a / b)

/-- Outcome of the Python float power operator `base ** exponent`. -/
inductive PowResult where
  /-- A real (float) result with an integral exponent; the exact value. -/
  | realInt (value : ℚ)
  /-- A real (float) result: nonnegative base, fractional exponent
      (a real root, irrational in general). -/
  | realRoot
  /-- CPython returns a complex number: negative base, fractional exponent. -/
  | complexNum
  /-- CPython raises `ZeroDivisionError`: zero base, negative exponent. -/
  | zeroDivisionError
deriving DecidableEq

/-- Embedding of `power` (server.py line 167): `result = base ** exponent`,
with CPython float `**` semantics as described on `PowResult`. -/
def power (base exponent : ℚ) : PowResult :=
  if base = 0 ∧ exponent < 0 then PowResult.zeroDivisionError
  else if exponent.den = 1 then PowResult.realInt (base ^ exponent.num)
  else if base < 0 then PowResult.complexNum
  else PowResult.realRoot

/-- Embedding of the f-string returned by `bodmas_calculation_prompt`
(server.py lines 22 to 49); the two interpolation sites of `{expression}`
become string concatenation.  Whitespace, including the trailing spaces
after "(Exponents/Powers) " and "subtraction  ", is copied exactly. -/
def bodmas_calculation_prompt (expression : String) : String :=
  "You are a BODMAS calculation assistant with access to mathematical operation tools.\n\n**Expression to evaluate:** "
  ++ expression ++
  "\n\n**Your task:**\n1. First, check the bodmas_chart.jpg resource to understand the order of operations\n2. Break down the expression according to BODMAS rules:\n   - B: Brackets (Parentheses) first\n   - O: Orders (Exponents/Powers) \n   - D: Division and M: Multiplication (left to right)\n   - A: Addition and S: Subtraction (left to right)\n\n3. Use the available tools to calculate step by step:\n   - add(a, b) - for addition\n   - subtract(a, b) - for subtraction  \n   - multiply(a, b) - for multiplication\n   - divide(a, b) - for division\n   - power(base, exponent) - for exponents\n\n4. Show each step clearly:\n   - Identify which operation to perform first according to BODMAS\n   - Call the appropriate tool with the correct arguments\n   - Use the result in the next step\n   - Continue until you reach the final answer\n\nPlease evaluate: "
  ++ expression ++
  "\n\nRemember to always follow BODMAS order and use the tools for each calculation step."

/-- Embedding of the markdown string returned by `bodmas_guide`
(server.py lines 86 to 98), copied exactly (braces escaped as \x7b, \x7d). -/
def bodmas_guide : String :=
  "# BODMAS Quick Reference\n\n## Order of Operations:\n1. **B**rackets (Parentheses) - ( ), [ ], \x7b \x7d\n2. **O**rders (Powers/Exponents) - ^, ², ³, √\n3. **D**ivision ÷ / and **M**ultiplication × * (left to right)\n4. **A**ddition + and **S**ubtraction - (left to right)\n\n## Remember:\n- Always work from left to right within the same priority level\n- Complete innermost brackets first\n- See bodmas_chart.jpg for visual reference\n"

/-- Outcome of opening and reading the backing file
`resources/bodmas.jpg`, the one effect `bodmas_chart_image` performs. -/
inductive FileReadOutcome where
  /-- The file exists and is readable; its byte contents. -/
  | found (content : List Nat)
  /-- Opening raises `FileNotFoundError`. -/
  | fileNotFound
  /-- Opening or reading raises any other exception, with its message. -/
  | readError (msg : String)

/-- Embedding of `bodmas_chart_image` (server.py lines 58 to 73):
returns the file bytes, and returns `b""` from either except branch
(after printing a warning, an effect with no bearing on the result). -/
def bodmas_chart_image : FileReadOutcome → List Nat
  | FileReadOutcome.found content => content
  | FileReadOutcome.fileNotFound => []
  | FileReadOutcome.readError _ => []

/-- Check whether the first character list is an initial segment
of the second. -/
def isPref : List Char → List Char → Bool
  | [], _ => true
  | _ :: _, [] => false
  | a :: as, b :: bs => a = b && isPref as bs

/-- Count the positions of the haystack at which the needle starts. -/
def countOcc (needle : List Char) : List Char → Nat
  | [] => if isPref needle [] then 1 else 0
  | c :: t => (if isPref needle (c :: t) then 1 else 0) + countOcc needle t

/-- Count the occurrences of `needle` as a substring of `haystack`. -/
def countOccS (needle haystack : String) : Nat :=
  countOcc needle.toList haystack.toList

set_option maxRecDepth 8000

/-- C1: for every a and every b ≠ 0, `divide a b` returns `a / b`, and the
`ValueError("Cannot divide by zero")` failure occurs exactly when the divisor
equals zero under exact numeric equality. -/
theorem divide_spec (a b : ℚ) :
    (b ≠ 0 → divide a b = Except.ok (a / b)) ∧
    (divide a b = Except.error "Cannot divide by zero" ↔ b = 0) := by
  by_cases hb : b = 0 <;> simp [divide, hb]

/-- Witness for `divide_spec` at the spec scenarios divide(9, 3) and
divide(10, 0). -/
theorem divide_spec_witness :
    (3 : ℚ) ≠ 0 ∧ divide 9 3 = Except.ok ((9 : ℚ) / 3) ∧
    divide 10 0 = Except.error "Cannot divide by zero" :=
  ⟨by norm_num, (divide_spec 9 3).1 (by norm_num), (divide_spec 10 0).2.mpr rfl⟩

/-- C2: `add`, `subtract` and `multiply` return the sum, difference and
product of their arguments; each is a total function (the one-line Python
bodies `a + b`, `a - b`, `a * b` cannot raise on numbers), so none of the
three ever fails. -/
theorem add_subtract_multiply_values (a b : ℚ) :
    add a b = a + b ∧ subtract a b = a - b ∧ multiply a b = a * b :=
  ⟨rfl, rfl, rfl⟩

/-- C3 counterexample: `power` does fail on some numeric input: with a zero
base and exponent -1 the operator `base ** exponent` raises
`ZeroDivisionError`, so power(0, -1) does not return a value. -/
theorem power_zero_base_negative_exponent_fails :
    power 0 (-1) = PowResult.zeroDivisionError := by decide

/-- C3 amended: `power` has no error guard of its own; it fails exactly when
the base is zero and the exponent is negative (where the host power operator
raises `ZeroDivisionError`), and on every other input it returns a value
without failing. -/
theorem power_error_iff (base exponent : ℚ) :
    power base exponent = PowResult.zeroDivisionError ↔
      base = 0 ∧ exponent < 0 := by
  unfold power
  split_ifs with h1 h2 h3 <;> simp_all

/-- C4 counterexample: in the prompt generated for "2 + 3 * 4" the substring
"add" occurs twice (once in "add(a, b)" and once inside "addition"), not
exactly once as claimed. -/
theorem prompt_add_count_is_two :
    countOccS "add" (bodmas_calculation_prompt "2 + 3 * 4") = 2 ∧
    countOccS "add" (bodmas_calculation_prompt "2 + 3 * 4") ≠ 1 := by decide

/-- C4 amended: the prompt generated for "2 + 3 * 4" contains the literal
substring "2 + 3 * 4" exactly twice, "multiply", "divide" and "power" each
exactly once, and "add" and "subtract" each exactly twice (once as the tool
name and once inside the words "addition" and "subtraction"). -/
theorem prompt_substring_counts :
    countOccS "2 + 3 * 4" (bodmas_calculation_prompt "2 + 3 * 4") = 2 ∧
    countOccS "add" (bodmas_calculation_prompt "2 + 3 * 4") = 2 ∧
    countOccS "subtract" (bodmas_calculation_prompt "2 + 3 * 4") = 2 ∧
    countOccS "multiply" (bodmas_calculation_prompt "2 + 3 * 4") = 1 ∧
    countOccS "divide" (bodmas_calculation_prompt "2 + 3 * 4") = 1 ∧
    countOccS "power" (bodmas_calculation_prompt "2 + 3 * 4") = 1 := by decide

/-- C5: the image resource read returns exactly the file bytes when the file
exists and is readable, and returns empty bytes when the file is absent or
when reading fails for any other reason; being a total function of the
file-read outcome, it never raises to the caller. -/
theorem bodmas_chart_image_spec :
    (∀ content, bodmas_chart_image (FileReadOutcome.found content) = content) ∧
    bodmas_chart_image FileReadOutcome.fileNotFound = [] ∧
    (∀ msg, bodmas_chart_image (FileReadOutcome.readError msg) = []) :=
  ⟨fun _ => rfl, rfl, fun _ => rfl⟩

/-- C6: power(base, 0) returns 1 for every base ≠ 0 (in fact the exponent 0
branch never fails), and power(base, 1) returns base for every base. -/
theorem power_identity_exponents (base : ℚ) :
    (base ≠ 0 → power base 0 = PowResult.realInt 1) ∧
    power base 1 = PowResult.realInt base := by
  constructor
  · intro h
    simp [power, h]
  · simp [power]

/-- Witness for `power_identity_exponents` at base 3. -/
theorem power_identity_exponents_witness :
    (3 : ℚ) ≠ 0 ∧ power 3 0 = PowResult.realInt 1 ∧
    power 3 1 = PowResult.realInt 3 :=
  ⟨by norm_num, (power_identity_exponents 3).1 (by norm_num),
    (power_identity_exponents 3).2⟩

/-- C7: the guide resource is a fixed constant string — so every call
returns the identical text and cannot fail — and that text is non-empty. -/
theorem bodmas_guide_nonempty : bodmas_guide ≠ "" := by decide

/-- C8: addition and multiplication as exposed by the tools are commutative,
0 is a right identity of `add`, and 1 is a right identity of `multiply`. -/
theorem add_multiply_laws (a b : ℚ) :
    add a b = add b a ∧ multiply a b = multiply b a ∧
    add a 0 = a ∧ multiply a 1 = a := by
  refine ⟨?_, ?_, ?_, ?_⟩ <;> simp [add, multiply, add_comm, mul_comm]

/-- C9: with base -8 and exponent 1/2 (a negative base and a non-integral
exponent) the host power operator yields a complex number, not a value of
the declared floating-point return type. -/
theorem power_neg_base_fractional_exponent_complex :
    power (-8) (1/2) = PowResult.complexNum := by
  have h1 : ¬((-8 : ℚ) = 0 ∧ (1/2 : ℚ) < 0) := by norm_num
  have h2 : (1/2 : ℚ).den ≠ 1 := by norm_num
  have h3 : (-8 : ℚ) < 0 := by norm_num
  simp [power, h1, h2, h3]

/-- C10: dividing by negative zero fails with the division-by-zero error,
because the guard compares the divisor to zero by numeric equality and
negative zero is numerically equal to zero. -/
theorem divide_negative_zero_fails (a : ℚ) :
    divide a (-0) = Except.error "Cannot divide by zero" := by
  simp [divide]

end BodmasServer
